import Mathlib

/-!
# Verification of the rtk_mqtt framework core

A shallow embedding, in Lean 4, of the core subsystems of the
`rtk_mqtt_framework` C repository, together with theorems settling the
behavioural claims about the topic builder, schema registry/validator,
message codec, MQTT backend manager and plugin manager.

Conventions used throughout:
* C strings become Lean `String`s; the fixed-capacity C char arrays are
  modelled as unbounded strings (the explicit length/validation checks of
  the C code are kept, silent truncation of oversized buffers is not
  modelled).
* C status codes (plain `int`s) become `Int` with the same numeric values
  as the `#define`/`enum` constants of the headers.
* The process-wide mutable state of each subsystem becomes an explicit
  state value threaded through the operations.
* `cJSON` (an external JSON library the code links against) is modelled by
  an executable JSON value type and a recursive-descent parser with the
  same observable behaviour on the inputs that matter here (first-match
  object lookup, leading-whitespace skipping, trailing input ignored).
-/

namespace RtkMqtt

namespace Topic

/-- `rtk_topic_config_t` of `rtk_topic_builder.h`: tenant/site/device_id
(and group_id, used only by group commands). -/
structure rtk_topic_config where
  tenant : String
  site : String
  device_id : String
  group_id : String := ""
  deriving DecidableEq, Repr

/-- `rtk_topic_type_t` of `rtk_topic_builder.h`. -/
inductive rtk_topic_type where
  | state
  | telemetry
  | event
  | attr
  | cmd_req
  | cmd_ack
  | cmd_res
  | lwt
  | group_cmd
  deriving DecidableEq, Repr

/-- `rtk_subscribe_pattern_t` of `rtk_topic_builder.h`. -/
inductive rtk_subscribe_pattern where
  | all_devices
  | all_events
  | all_telemetry
  | all_commands
  | device_all
  | global_monitor
  deriving DecidableEq, Repr

/-- The topic builder's internal state (`current_config` + `is_configured`
in `topic_builder.c`): `none` while unconfigured. -/
abbrev TopicState := Option rtk_topic_config

/-- `validate_component` of `topic_builder.c`: reject empty strings and
strings containing `+`, `#` or `/`. -/
def validate_component (component : String) : Bool :=
  if component = "" then false
  else component.data.all fun c => !(c == '+' || c == '#' || c == '/')

/-- `rtk_topic_set_config` of `topic_builder.c`: validate tenant, site and
device_id, then store the configuration.  A `none` argument models a NULL
config pointer. -/
def rtk_topic_set_config (config : Option rtk_topic_config) (st : TopicState) :
    Int × TopicState :=
  match config with
  | none => (-1, st)
  | some cfg =>
    if validate_component cfg.tenant && validate_component cfg.site &&
        validate_component cfg.device_id then
      (0, some cfg)
    else
      (-1, st)

/-- `build_base_topic` of `topic_builder.c`:
`rtk/v1/{tenant}/{site}/{device_id}` (requires a configured builder;
the caller handles the unconfigured case). -/
def build_base_topic (cfg : rtk_topic_config) : String :=
  "rtk" ++ "/" ++ "v1" ++ "/" ++ cfg.tenant ++ "/" ++ cfg.site ++ "/" ++ cfg.device_id

/-- `rtk_topic_build` of `topic_builder.c`.  `none` models a failure
(return value `< 0`); `metric_or_event = none` models a NULL metric
pointer.  Buffer-capacity failures of the C code are not modelled. -/
def rtk_topic_build (ty : rtk_topic_type) (metric_or_event : Option String)
    (st : TopicState) : Option String :=
  match st with
  | none => none
  | some cfg =>
    let base := build_base_topic cfg
    match ty with
    | .state => some (base ++ "/state")
    | .telemetry =>
      match metric_or_event with
      | none => none
      | some m => some (base ++ "/telemetry/" ++ m)
    | .event =>
      match metric_or_event with
      | none => none
      | some m => some (base ++ "/evt/" ++ m)
    | .attr => some (base ++ "/attr")
    | .cmd_req => some (base ++ "/cmd/req")
    | .cmd_ack => some (base ++ "/cmd/ack")
    | .cmd_res => some (base ++ "/cmd/res")
    | .lwt => some (base ++ "/lwt")
    | .group_cmd => none

/-- The tokenization performed by the `strtok(topic_copy, "/")` loop of
`rtk_topic_parse`: split on `/`, dropping empty runs (`strtok` skips
consecutive separators). -/
def tokenizeL (l : List Char) : List (List Char) :=
  (l.splitOn '/').filter (· ≠ [])

/-- String-level wrapper of `tokenizeL`. -/
def tokenize (s : String) : List (List Char) :=
  tokenizeL s.data

/-- The part of `rtk_topic_config_t` that `rtk_topic_parse` actually
writes (it never touches `group_id`). -/
structure parsed_topic where
  tenant : String
  site : String
  device_id : String
  deriving DecidableEq, Repr

/-- `rtk_topic_parse` of `topic_builder.c`: tokenize on `/` (the C loop
keeps at most 10 components), require the `rtk`/`v1` prefix and at least 6
components, then dispatch on the component count: 6 → state/attr/lwt,
7 → telemetry/evt with a captured metric, 8 with `cmd` → req/ack/res.
`none` models the C return value `-1`. -/
def rtk_topic_parse (topic : String) :
    Option (parsed_topic × rtk_topic_type × Option String) :=
  let comps := (tokenize topic).take 10
  if comps.length < 6 ∨ comps.getD 0 [] ≠ "rtk".data ∨ comps.getD 1 [] ≠ "v1".data then
    none
  else
    let cfg : parsed_topic :=
      ⟨String.mk (comps.getD 2 []), String.mk (comps.getD 3 []), String.mk (comps.getD 4 [])⟩
    if comps.length = 6 then
      if comps.getD 5 [] = "state".data then some (cfg, .state, none)
      else if comps.getD 5 [] = "attr".data then some (cfg, .attr, none)
      else if comps.getD 5 [] = "lwt".data then some (cfg, .lwt, none)
      else none
    else if comps.length = 7 then
      if comps.getD 5 [] = "telemetry".data then
        some (cfg, .telemetry, some (String.mk (comps.getD 6 [])))
      else if comps.getD 5 [] = "evt".data then
        some (cfg, .event, some (String.mk (comps.getD 6 [])))
      else none
    else if comps.length = 8 ∧ comps.getD 5 [] = "cmd".data then
      if comps.getD 6 [] = "req".data then some (cfg, .cmd_req, none)
      else if comps.getD 6 [] = "ack".data then some (cfg, .cmd_ack, none)
      else if comps.getD 6 [] = "res".data then some (cfg, .cmd_res, none)
      else none
    else
      none

/-- `rtk_topic_is_valid` of `topic_builder.c`: a topic is valid iff
`rtk_topic_parse` succeeds. -/
def rtk_topic_is_valid (topic : String) : Bool :=
  (rtk_topic_parse topic).isSome

/-- `rtk_topic_build_subscribe_pattern` of `topic_builder.c`.  The
`is_configured` check happens before the `switch` on the pattern, so every
pattern (the global monitor pattern included) requires a configuration. -/
def rtk_topic_build_subscribe_pattern (pattern : rtk_subscribe_pattern)
    (st : TopicState) : Option String :=
  match st with
  | none => none
  | some cfg =>
    match pattern with
    | .all_devices =>
      some ("rtk" ++ "/" ++ "v1" ++ "/" ++ cfg.tenant ++ "/" ++ cfg.site ++ "/+/state")
    | .all_events =>
      some ("rtk" ++ "/" ++ "v1" ++ "/" ++ cfg.tenant ++ "/" ++ cfg.site ++ "/+/evt/#")
    | .all_telemetry =>
      some ("rtk" ++ "/" ++ "v1" ++ "/" ++ cfg.tenant ++ "/" ++ cfg.site ++ "/+/telemetry/#")
    | .all_commands =>
      some ("rtk" ++ "/" ++ "v1" ++ "/" ++ cfg.tenant ++ "/" ++ cfg.site ++ "/+/cmd/#")
    | .device_all =>
      some ("rtk" ++ "/" ++ "v1" ++ "/" ++ cfg.tenant ++ "/" ++ cfg.site ++ "/" ++
        cfg.device_id ++ "/#")
    | .global_monitor =>
      some ("rtk" ++ "/" ++ "v1" ++ "/+/+/+/evt/#")

/-- The canonical wire shape of a device topic as described by the
protocol: `rtk/v1/{tenant}/{site}/{device_id}` followed by the
type-specific suffix.  Used to state claims about `rtk_topic_parse`
independently of the stateful builder. -/
def surface_topic (t s d : String) (ty : rtk_topic_type) (m : Option String) : String :=
  let base := "rtk/v1/" ++ t ++ "/" ++ s ++ "/" ++ d
  match ty with
  | .state => base ++ "/state"
  | .telemetry => base ++ "/telemetry/" ++ m.getD ""
  | .event => base ++ "/evt/" ++ m.getD ""
  | .attr => base ++ "/attr"
  | .cmd_req => base ++ "/cmd/req"
  | .cmd_ack => base ++ "/cmd/ack"
  | .cmd_res => base ++ "/cmd/res"
  | .lwt => base ++ "/lwt"
  | .group_cmd => base

/-- A string that is usable as a single topic token: nonempty and free of
the `/` separator (wildcard characters are allowed here). -/
abbrev token_ok (s : String) : Prop :=
  s.data ≠ [] ∧ '/' ∉ s.data

/-- The metric/event argument discipline of the claims: `telemetry` and
`evt` carry a token, the other device topic types carry none, and the
group-command type (which `rtk_topic_build` rejects) is excluded. -/
def metric_arg_ok : rtk_topic_type → Option String → Prop
  | .telemetry, m => ∃ x, m = some x ∧ token_ok x
  | .event, m => ∃ x, m = some x ∧ token_ok x
  | .group_cmd, _ => False
  | _, m => m = none

lemma mk_data (s : String) : String.mk s.data = s := by
  cases s
  rfl

lemma validate_component_true_iff (s : String) :
    validate_component s = true ↔
      s ≠ "" ∧ ∀ c ∈ s.data, c ≠ '+' ∧ c ≠ '#' ∧ c ≠ '/' := by
  by_cases h : s = ""
  · simp [validate_component, h]
  · simp only [validate_component, h, if_false, List.all_eq_true, ne_eq,
      not_false_iff, true_and]
    constructor
    · intro hall c hc
      have := hall c hc
      simp only [Bool.not_eq_true', Bool.or_eq_false_iff, beq_eq_false_iff_ne] at this
      exact ⟨this.1.1, this.1.2, this.2⟩
    · intro hall c hc
      have := hall c hc
      simp only [Bool.not_eq_true', Bool.or_eq_false_iff, beq_eq_false_iff_ne]
      exact ⟨⟨this.1, this.2.1⟩, this.2.2⟩

lemma data_ne_nil_of_ne_empty {s : String} (h : s ≠ "") : s.data ≠ [] := by
  intro hd
  apply h
  cases s
  simp_all [String.ext_iff]

lemma token_ok_of_validate {s : String} (h : validate_component s = true) : token_ok s := by
  obtain ⟨hne, hall⟩ := (validate_component_true_iff s).mp h
  exact ⟨data_ne_nil_of_ne_empty hne, fun hmem => (hall _ hmem).2.2 rfl⟩

lemma tokenizeL_intercalate (ls : List (List Char))
    (h : ∀ l ∈ ls, l ≠ [] ∧ '/' ∉ l) (hne : ls ≠ []) :
    tokenizeL (['/'].intercalate ls) = ls := by
  unfold tokenizeL
  rw [List.splitOn_intercalate ls '/' (fun l hl => (h l hl).2) hne]
  exact List.filter_eq_self.mpr fun l hl => by simpa using (h l hl).1

lemma tokenize_eq_of_data (s : String) (ls : List (List Char))
    (hdata : s.data = ['/'].intercalate ls)
    (h : ∀ l ∈ ls, l ≠ [] ∧ '/' ∉ l) (hne : ls ≠ []) :
    tokenize s = ls := by
  rw [tokenize, hdata]
  exact tokenizeL_intercalate ls h hne

/-- Key parsing lemma: on a canonically shaped non-command topic built
from slash-free nonempty tokens, `rtk_topic_parse` recovers exactly the
tenant/site/device tokens, the type and the metric.  Command topics are
excluded: the canonical `.../cmd/{req|ack|res}` shape has 7 components
while `rtk_topic_parse` only accepts `cmd` at 8 components. -/
lemma parse_surface_topic (t s d : String) (ty : rtk_topic_type) (m : Option String)
    (ht : token_ok t) (hs : token_ok s) (hd : token_ok d)
    (harg : metric_arg_ok ty m)
    (hty : ty ≠ .cmd_req ∧ ty ≠ .cmd_ack ∧ ty ≠ .cmd_res) :
    rtk_topic_parse (surface_topic t s d ty m) = some (⟨t, s, d⟩, ty, m) := by
  cases ty with
  | state =>
    cases harg
    have htok : tokenize (surface_topic t s d .state none) =
        ["rtk".data, "v1".data, t.data, s.data, d.data, "state".data] := by
      refine tokenize_eq_of_data _ _ ?_ ?_ (by simp)
      · simp [surface_topic, List.intercalate, List.intersperse, String.data_append]
      · intro l hl
        simp only [List.mem_cons, List.not_mem_nil, or_false] at hl
        rcases hl with rfl | rfl | rfl | rfl | rfl | rfl
        · exact ⟨by decide, by decide⟩
        · exact ⟨by decide, by decide⟩
        · exact ht
        · exact hs
        · exact hd
        · exact ⟨by decide, by decide⟩
    rw [rtk_topic_parse, htok]
    simp [List.getD, mk_data]
  | telemetry =>
    obtain ⟨x, rfl, hx⟩ := harg
    have htok : tokenize (surface_topic t s d .telemetry (some x)) =
        ["rtk".data, "v1".data, t.data, s.data, d.data, "telemetry".data, x.data] := by
      refine tokenize_eq_of_data _ _ ?_ ?_ (by simp)
      · simp [surface_topic, List.intercalate, List.intersperse, String.data_append]
      · intro l hl
        simp only [List.mem_cons, List.not_mem_nil, or_false] at hl
        rcases hl with rfl | rfl | rfl | rfl | rfl | rfl | rfl
        · exact ⟨by decide, by decide⟩
        · exact ⟨by decide, by decide⟩
        · exact ht
        · exact hs
        · exact hd
        · exact ⟨by decide, by decide⟩
        · exact hx
    rw [rtk_topic_parse, htok]
    simp [List.getD, mk_data]
  | event =>
    obtain ⟨x, rfl, hx⟩ := harg
    have htok : tokenize (surface_topic t s d .event (some x)) =
        ["rtk".data, "v1".data, t.data, s.data, d.data, "evt".data, x.data] := by
      refine tokenize_eq_of_data _ _ ?_ ?_ (by simp)
      · simp [surface_topic, List.intercalate, List.intersperse, String.data_append]
      · intro l hl
        simp only [List.mem_cons, List.not_mem_nil, or_false] at hl
        rcases hl with rfl | rfl | rfl | rfl | rfl | rfl | rfl
        · exact ⟨by decide, by decide⟩
        · exact ⟨by decide, by decide⟩
        · exact ht
        · exact hs
        · exact hd
        · exact ⟨by decide, by decide⟩
        · exact hx
    rw [rtk_topic_parse, htok]
    simp [List.getD, mk_data]
  | attr =>
    cases harg
    have htok : tokenize (surface_topic t s d .attr none) =
        ["rtk".data, "v1".data, t.data, s.data, d.data, "attr".data] := by
      refine tokenize_eq_of_data _ _ ?_ ?_ (by simp)
      · simp [surface_topic, List.intercalate, List.intersperse, String.data_append]
      · intro l hl
        simp only [List.mem_cons, List.not_mem_nil, or_false] at hl
        rcases hl with rfl | rfl | rfl | rfl | rfl | rfl
        · exact ⟨by decide, by decide⟩
        · exact ⟨by decide, by decide⟩
        · exact ht
        · exact hs
        · exact hd
        · exact ⟨by decide, by decide⟩
    rw [rtk_topic_parse, htok]
    simp [List.getD, mk_data]
  | cmd_req =>
    exact absurd rfl hty.1
  | cmd_ack =>
    exact absurd rfl hty.2.1
  | cmd_res =>
    exact absurd rfl hty.2.2
  | lwt =>
    cases harg
    have htok : tokenize (surface_topic t s d .lwt none) =
        ["rtk".data, "v1".data, t.data, s.data, d.data, "lwt".data] := by
      refine tokenize_eq_of_data _ _ ?_ ?_ (by simp)
      · simp [surface_topic, List.intercalate, List.intersperse, String.data_append]
      · intro l hl
        simp only [List.mem_cons, List.not_mem_nil, or_false] at hl
        rcases hl with rfl | rfl | rfl | rfl | rfl | rfl
        · exact ⟨by decide, by decide⟩
        · exact ⟨by decide, by decide⟩
        · exact ht
        · exact hs
        · exact hd
        · exact ⟨by decide, by decide⟩
    rw [rtk_topic_parse, htok]
    simp [List.getD, mk_data]
  | group_cmd => exact absurd harg (by simp [metric_arg_ok])

/-- `rtk_topic_build` on a configured builder produces exactly the
canonical wire-shaped topic. -/
lemma build_eq_surface (cfg : rtk_topic_config) (ty : rtk_topic_type) (m : Option String)
    (harg : metric_arg_ok ty m) :
    rtk_topic_build ty m (some cfg) =
      some (surface_topic cfg.tenant cfg.site cfg.device_id ty m) := by
  cases ty with
  | telemetry =>
    obtain ⟨x, rfl, -⟩ := harg
    rfl
  | event =>
    obtain ⟨x, rfl, -⟩ := harg
    rfl
  | group_cmd => exact absurd harg (by simp [metric_arg_ok])
  | state => rfl
  | attr => rfl
  | cmd_req => rfl
  | cmd_ack => rfl
  | cmd_res => rfl
  | lwt => rfl

/-- The round-trip `Parse (Build cfg t m) = (cfg, t, m)` does hold for the
five non-command topic types (state, telemetry, evt, attr, lwt). -/
lemma roundtrip_non_cmd (cfg : rtk_topic_config) (ty : rtk_topic_type) (m : Option String)
    (hcfg : validate_component cfg.tenant = true ∧ validate_component cfg.site = true ∧
      validate_component cfg.device_id = true)
    (harg : metric_arg_ok ty m)
    (hty : ty ≠ .cmd_req ∧ ty ≠ .cmd_ack ∧ ty ≠ .cmd_res) :
    ∀ topic, rtk_topic_build ty m (some cfg) = some topic →
      rtk_topic_parse topic = some (⟨cfg.tenant, cfg.site, cfg.device_id⟩, ty, m) := by
  intro topic htopic
  rw [build_eq_surface cfg ty m harg] at htopic
  cases htopic
  exact parse_surface_topic _ _ _ _ _ (token_ok_of_validate hcfg.1)
    (token_ok_of_validate hcfg.2.1) (token_ok_of_validate hcfg.2.2) harg hty

/-- A string containing an MQTT wildcard character. -/
abbrev wildcard_in (s : String) : Prop :=
  '+' ∈ s.data ∨ '#' ∈ s.data

/-- A configuration component that `rtk_topic_set_config` rejects:
empty, or containing `+`, `#` or `/`. -/
abbrev bad_component (s : String) : Prop :=
  s = "" ∨ '+' ∈ s.data ∨ '#' ∈ s.data ∨ '/' ∈ s.data

lemma validate_component_false_of_bad {s : String} (h : bad_component s) :
    validate_component s = false := by
  rw [← Bool.not_eq_true]
  intro hv
  obtain ⟨hne, hall⟩ := (validate_component_true_iff s).mp hv
  rcases h with h | h | h | h
  · exact hne h
  · exact (hall _ h).1 rfl
  · exact (hall _ h).2.1 rfl
  · exact (hall _ h).2.2 rfl

/-- The 6-, 7- and 8-component topic shapes that `rtk_topic_parse`
dispatches on.  For the non-command types this is the canonical wire
shape; for the command types the code demands 8 components (`cmd` at
index 5, the sub-type at index 6, and one trailing component), so the
shape carries the extra trailing token. -/
def wire_topic (t s d : String) (ty : rtk_topic_type) (m : Option String)
    (extra : String) : String :=
  match ty with
  | .cmd_req => "rtk/v1/" ++ t ++ "/" ++ s ++ "/" ++ d ++ "/cmd/req/" ++ extra
  | .cmd_ack => "rtk/v1/" ++ t ++ "/" ++ s ++ "/" ++ d ++ "/cmd/ack/" ++ extra
  | .cmd_res => "rtk/v1/" ++ t ++ "/" ++ s ++ "/" ++ d ++ "/cmd/res/" ++ extra
  | _ => surface_topic t s d ty m

/-- Parsing the 8-component `cmd/req` shape accepted by the code. -/
lemma parse_cmd_req_wire (t s d extra : String)
    (ht : token_ok t) (hs : token_ok s) (hd : token_ok d) (he : token_ok extra) :
    rtk_topic_parse ("rtk/v1/" ++ t ++ "/" ++ s ++ "/" ++ d ++ "/cmd/req/" ++ extra) =
      some (⟨t, s, d⟩, .cmd_req, none) := by
  have htok : tokenize ("rtk/v1/" ++ t ++ "/" ++ s ++ "/" ++ d ++ "/cmd/req/" ++ extra) =
      ["rtk".data, "v1".data, t.data, s.data, d.data, "cmd".data, "req".data, extra.data] := by
    refine tokenize_eq_of_data _ _ ?_ ?_ (by simp)
    · simp [List.intercalate, List.intersperse, String.data_append]
    · intro l hl
      simp only [List.mem_cons, List.not_mem_nil, or_false] at hl
      rcases hl with rfl | rfl | rfl | rfl | rfl | rfl | rfl | rfl
      · exact ⟨by decide, by decide⟩
      · exact ⟨by decide, by decide⟩
      · exact ht
      · exact hs
      · exact hd
      · exact ⟨by decide, by decide⟩
      · exact ⟨by decide, by decide⟩
      · exact he
  rw [rtk_topic_parse, htok]
  simp [List.getD, mk_data]

/-- Parsing the 8-component `cmd/ack` shape accepted by the code. -/
lemma parse_cmd_ack_wire (t s d extra : String)
    (ht : token_ok t) (hs : token_ok s) (hd : token_ok d) (he : token_ok extra) :
    rtk_topic_parse ("rtk/v1/" ++ t ++ "/" ++ s ++ "/" ++ d ++ "/cmd/ack/" ++ extra) =
      some (⟨t, s, d⟩, .cmd_ack, none) := by
  have htok : tokenize ("rtk/v1/" ++ t ++ "/" ++ s ++ "/" ++ d ++ "/cmd/ack/" ++ extra) =
      ["rtk".data, "v1".data, t.data, s.data, d.data, "cmd".data, "ack".data, extra.data] := by
    refine tokenize_eq_of_data _ _ ?_ ?_ (by simp)
    · simp [List.intercalate, List.intersperse, String.data_append]
    · intro l hl
      simp only [List.mem_cons, List.not_mem_nil, or_false] at hl
      rcases hl with rfl | rfl | rfl | rfl | rfl | rfl | rfl | rfl
      · exact ⟨by decide, by decide⟩
      · exact ⟨by decide, by decide⟩
      · exact ht
      · exact hs
      · exact hd
      · exact ⟨by decide, by decide⟩
      · exact ⟨by decide, by decide⟩
      · exact he
  rw [rtk_topic_parse, htok]
  simp [List.getD, mk_data]

/-- Parsing the 8-component `cmd/res` shape accepted by the code. -/
lemma parse_cmd_res_wire (t s d extra : String)
    (ht : token_ok t) (hs : token_ok s) (hd : token_ok d) (he : token_ok extra) :
    rtk_topic_parse ("rtk/v1/" ++ t ++ "/" ++ s ++ "/" ++ d ++ "/cmd/res/" ++ extra) =
      some (⟨t, s, d⟩, .cmd_res, none) := by
  have htok : tokenize ("rtk/v1/" ++ t ++ "/" ++ s ++ "/" ++ d ++ "/cmd/res/" ++ extra) =
      ["rtk".data, "v1".data, t.data, s.data, d.data, "cmd".data, "res".data, extra.data] := by
    refine tokenize_eq_of_data _ _ ?_ ?_ (by simp)
    · simp [List.intercalate, List.intersperse, String.data_append]
    · intro l hl
      simp only [List.mem_cons, List.not_mem_nil, or_false] at hl
      rcases hl with rfl | rfl | rfl | rfl | rfl | rfl | rfl | rfl
      · exact ⟨by decide, by decide⟩
      · exact ⟨by decide, by decide⟩
      · exact ht
      · exact hs
      · exact hd
      · exact ⟨by decide, by decide⟩
      · exact ⟨by decide, by decide⟩
      · exact he
  rw [rtk_topic_parse, htok]
  simp [List.getD, mk_data]

set_option maxHeartbeats 1000000 in
/-- C1 (code_bug evaluation): with the valid configuration
(tenant `acme`, site `hq`, device `dev1`) set, `Build(cmd.req)` yields the
canonical 7-component topic `rtk/v1/acme/hq/dev1/cmd/req`, but `Parse`
rejects it (the code only accepts `cmd` topics at 8 components,
`topic_builder.c:272`), so `Parse (Build cfg cmd.req)` fails instead of
returning `(cfg, cmd.req)` — the claimed round-trip property, which the
spec states for all topic types, is broken by the code for the three
command types (it does hold for the other five, see `roundtrip_non_cmd`).
-/
theorem C1_cmd_roundtrip_fails_on_code :
    rtk_topic_set_config (some ⟨"acme", "hq", "dev1", ""⟩) none =
      (0, some ⟨"acme", "hq", "dev1", ""⟩) ∧
    rtk_topic_build .cmd_req none (some ⟨"acme", "hq", "dev1", ""⟩) =
      some "rtk/v1/acme/hq/dev1/cmd/req" ∧
    rtk_topic_parse "rtk/v1/acme/hq/dev1/cmd/req" = none := by
  refine ⟨by decide, ?_, by decide⟩
  decide

/-- C3 (counterexample): with no configuration set, building the global
cross-tenant monitor subscribe pattern does not succeed — it fails like
every other pattern, because the `is_configured` check precedes the
pattern dispatch. -/
theorem C3_counterexample_global_monitor_unconfigured :
    rtk_topic_build_subscribe_pattern .global_monitor none = none := by
  decide

/-- C3 (amended): `BuildSubscribePattern` requires a prior successful
`SetConfig` for all six patterns, the global cross-tenant monitor pattern
included; once configured, the global pattern yields the fixed wildcard
topic `rtk/v1/+/+/+/evt/#`. -/
theorem C3_all_patterns_require_config :
    (∀ p : rtk_subscribe_pattern, rtk_topic_build_subscribe_pattern p none = none) ∧
    (∀ cfg : rtk_topic_config,
      rtk_topic_build_subscribe_pattern .global_monitor (some cfg) =
        some "rtk/v1/+/+/+/evt/#") := by
  refine ⟨fun p => ?_, fun cfg => rfl⟩
  cases p <;> rfl

/-- C9: a failing `SetConfig` (NULL config, or any of tenant / site /
device_id empty or containing `+`, `#` or `/`) returns `-1` and leaves the
previously stored configuration in place, so subsequent `Build` calls
still use the old configuration. -/
theorem C9_set_config_failure_preserves_config (old : rtk_topic_config)
    (bad : Option rtk_topic_config)
    (hbad : bad = none ∨ ∃ c, bad = some c ∧
      (bad_component c.tenant ∨ bad_component c.site ∨ bad_component c.device_id)) :
    rtk_topic_set_config bad (some old) = (-1, some old) ∧
    ∀ ty m, rtk_topic_build ty m (rtk_topic_set_config bad (some old)).2 =
      rtk_topic_build ty m (some old) := by
  have hmain : rtk_topic_set_config bad (some old) = (-1, some old) := by
    rcases hbad with rfl | ⟨c, rfl, hc⟩
    · rfl
    · have : (validate_component c.tenant && validate_component c.site &&
          validate_component c.device_id) = false := by
        rcases hc with hc | hc | hc <;>
          simp [validate_component_false_of_bad hc]
      simp [rtk_topic_set_config, this]
  exact ⟨hmain, fun ty m => by rw [hmain]⟩

/-- C9 witness: with `(acme, hq, dev1)` configured, a `SetConfig` with the
wildcard-bearing tenant `a+b` fails and keeps the old configuration. -/
theorem C9_set_config_failure_witness :
    rtk_topic_set_config (some ⟨"a+b", "hq", "dev1", ""⟩)
      (some ⟨"acme", "hq", "dev1", ""⟩) = (-1, some ⟨"acme", "hq", "dev1", ""⟩) :=
  (C9_set_config_failure_preserves_config ⟨"acme", "hq", "dev1", ""⟩
    (some ⟨"a+b", "hq", "dev1", ""⟩)
    (Or.inr ⟨_, rfl, Or.inl (Or.inr (Or.inl (by decide)))⟩)).1

set_option maxHeartbeats 1000000 in
/-- C10: `rtk_topic_parse` does not enforce the character restrictions
that `rtk_topic_set_config` enforces: on any structurally valid shape
(`rtk/v1` prefix and one of the 6-, 7- or 8-component suffix forms the
parser dispatches on) whose tenant / site / device / metric tokens are
nonempty, slash-free and contain MQTT wildcards `+` or `#`, parsing
succeeds and returns the wildcard-bearing tokens as components; in
particular `rtk_topic_is_valid "rtk/v1/acme/hq/+/state" = true`. -/
theorem C10_parse_accepts_wildcard_components (t s d extra : String)
    (ty : rtk_topic_type) (m : Option String)
    (ht : token_ok t) (hs : token_ok s) (hd : token_ok d) (hextra : token_ok extra)
    (harg : metric_arg_ok ty m)
    (hwild : wildcard_in t ∨ wildcard_in s ∨ wildcard_in d ∨
      ∃ x, m = some x ∧ wildcard_in x) :
    rtk_topic_parse (wire_topic t s d ty m extra) = some (⟨t, s, d⟩, ty, m) ∧
    rtk_topic_is_valid (wire_topic t s d ty m extra) = true ∧
    rtk_topic_is_valid "rtk/v1/acme/hq/+/state" = true := by
  have hparse : rtk_topic_parse (wire_topic t s d ty m extra) = some (⟨t, s, d⟩, ty, m) := by
    cases ty with
    | cmd_req =>
      cases harg
      exact parse_cmd_req_wire t s d extra ht hs hd hextra
    | cmd_ack =>
      cases harg
      exact parse_cmd_ack_wire t s d extra ht hs hd hextra
    | cmd_res =>
      cases harg
      exact parse_cmd_res_wire t s d extra ht hs hd hextra
    | group_cmd => exact absurd harg (by simp [metric_arg_ok])
    | state => exact parse_surface_topic t s d _ m ht hs hd harg (by simp)
    | telemetry => exact parse_surface_topic t s d _ m ht hs hd harg (by simp)
    | event => exact parse_surface_topic t s d _ m ht hs hd harg (by simp)
    | attr => exact parse_surface_topic t s d _ m ht hs hd harg (by simp)
    | lwt => exact parse_surface_topic t s d _ m ht hs hd harg (by simp)
  refine ⟨hparse, ?_, by decide⟩
  rw [rtk_topic_is_valid, hparse]
  rfl

set_option maxHeartbeats 1000000 in
/-- C10 witness: the subscription-style topic `rtk/v1/acme/hq/+/state`,
whose device component is the wildcard `+`, parses successfully. -/
theorem C10_parse_accepts_wildcard_witness :
    rtk_topic_parse (wire_topic "acme" "hq" "+" .state none "x") =
      some (⟨"acme", "hq", "+"⟩, .state, none) ∧
    rtk_topic_is_valid "rtk/v1/acme/hq/+/state" = true := by
  have h := C10_parse_accepts_wildcard_components "acme" "hq" "+" "x" .state none
    (by decide) (by decide) (by decide) (by decide) rfl
    (Or.inr (Or.inr (Or.inl (Or.inl (by decide)))))
  exact ⟨h.1, h.2.2⟩

end Topic

namespace Json

/-- The JSON value tree produced by `cJSON_Parse`.  C doubles are modelled
as rationals; object fields keep insertion order and may repeat (cJSON
lookups return the first match). -/
inductive JVal where
  | null
  | jbool (b : Bool)
  | num (q : ℚ)
  | str (s : String)
  | arr (elems : List JVal)
  | obj (fields : List (String × JVal))

def skipWs : List Char → List Char
  | [] => []
  | c :: rest => if c.toNat ≤ 32 then skipWs rest else c :: rest

def escChar (c : Char) : Option Char :=
  match c with
  | 'b' => some (Char.ofNat 8)
  | 'f' => some (Char.ofNat 12)
  | 'n' => some (Char.ofNat 10)
  | 'r' => some (Char.ofNat 13)
  | 't' => some (Char.ofNat 9)
  | '"' => some '"'
  | '\\' => some '\\'
  | '/' => some '/'
  | _ => none

def parseStringAux : List Char → Option (List Char × List Char)
  | [] => none
  | c :: rest =>
    if c = '"' then some ([], rest)
    else if c = '\\' then
      match rest with
      | [] => none
      | e :: rest2 =>
        match escChar e with
        | none => none
        | some ec =>
          match parseStringAux rest2 with
          | none => none
          | some (cs, rem) => some (ec :: cs, rem)
    else
      match parseStringAux rest with
      | none => none
      | some (cs, rem) => some (c :: cs, rem)

def digitVal (c : Char) : Option Nat :=
  if '0' ≤ c ∧ c ≤ '9' then some (c.toNat - 48) else none

def takeDigits : List Char → (List Nat × List Char)
  | [] => ([], [])
  | c :: rest =>
    match digitVal c with
    | some d =>
      let (ds, rem) := takeDigits rest
      (d :: ds, rem)
    | none => ([], c :: rest)

def digitsToNat (ds : List Nat) : Nat :=
  ds.foldl (fun a d => a * 10 + d) 0

def parseNumber (l : List Char) : Option (ℚ × List Char) :=
  let (neg, l1) := match l with
    | '-' :: r => (true, r)
    | _ => (false, l)
  let (ids, l2) := takeDigits l1
  if ids.isEmpty then none else
  let (fds, l3) := match l2 with
    | '.' :: r => takeDigits r
    | _ => ([], l2)
  let (expNeg, eds, l4) := match l3 with
    | 'e' :: r | 'E' :: r =>
      match r with
      | '+' :: r2 =>
        let (ds, rem) := takeDigits r2
        (false, ds, rem)
      | '-' :: r2 =>
        let (ds, rem) := takeDigits r2
        (true, ds, rem)
      | _ =>
        let (ds, rem) := takeDigits r
        (false, ds, rem)
    | _ => (false, [], l3)
  let mag : Int := (digitsToNat (ids ++ fds) : Int)
  let mantissa : Int := if neg then -mag else mag
  let e10 : Int := (if expNeg then -(digitsToNat eds : Int) else (digitsToNat eds : Int)) -
    (fds.length : Int)
  let q : ℚ :=
    if 0 ≤ e10 then ((mantissa * 10 ^ e10.toNat : Int) : ℚ)
    else mkRat mantissa (10 ^ (-e10).toNat)
  some (q, l4)

mutual

def parseVal : Nat → List Char → Option (JVal × List Char)
  | 0, _ => none
  | fuel + 1, l =>
    match skipWs l with
    | [] => none
    | 'n' :: 'u' :: 'l' :: 'l' :: r => some (.null, r)
    | 'f' :: 'a' :: 'l' :: 's' :: 'e' :: r => some (.jbool false, r)
    | 't' :: 'r' :: 'u' :: 'e' :: r => some (.jbool true, r)
    | '"' :: r =>
      match parseStringAux r with
      | none => none
      | some (cs, rem) => some (.str (String.mk cs), rem)
    | '[' :: r =>
      match skipWs r with
      | ']' :: rem => some (.arr [], rem)
      | r1 => parseElems fuel r1 []
    | '{' :: r =>
      match skipWs r with
      | '}' :: rem => some (.obj [], rem)
      | r1 => parseFields fuel r1 []
    | c :: r =>
      if c = '-' ∨ (digitVal c).isSome then
        match parseNumber (c :: r) with
        | none => none
        | some (q, rem) => some (.num q, rem)
      else none

def parseElems : Nat → List Char → List JVal → Option (JVal × List Char)
  | 0, _, _ => none
  | fuel + 1, l, acc =>
    match parseVal fuel l with
    | none => none
    | some (v, rem) =>
      match skipWs rem with
      | ',' :: rem2 => parseElems fuel rem2 (acc ++ [v])
      | ']' :: rem2 => some (.arr (acc ++ [v]), rem2)
      | _ => none

def parseFields : Nat → List Char → List (String × JVal) → Option (JVal × List Char)
  | 0, _, _ => none
  | fuel + 1, l, acc =>
    match skipWs l with
    | '"' :: r =>
      match parseStringAux r with
      | none => none
      | some (k, rem) =>
        match skipWs rem with
        | ':' :: rem2 =>
          match parseVal fuel rem2 with
          | none => none
          | some (v, rem3) =>
            match skipWs rem3 with
            | ',' :: rem4 => parseFields fuel rem4 (acc ++ [(String.mk k, v)])
            | '}' :: rem4 => some (.obj (acc ++ [(String.mk k, v)]), rem4)
            | _ => none
        | _ => none
    | _ => none

end

/-- `cJSON_Parse`: parse one JSON value after skipping leading
whitespace; cJSON is called with `require_null_terminated = 0`, so
trailing input after the value is ignored.  `\uXXXX` string escapes are
not modelled (none of the inputs of interest use them). -/
def cJSON_Parse (s : String) : Option JVal :=
  match parseVal (s.data.length + 1) s.data with
  | some (v, _) => some v
  | none => none

/-- First-match field lookup in an object field list (cJSON linked-list
lookup semantics). -/
def getField : List (String × JVal) → String → Option JVal
  | [], _ => none
  | (k, v) :: rest, name => if k = name then some v else getField rest name

/-- `cJSON_GetObjectItemCaseSensitive`: first matching field of an
object; `none` on a non-object value. -/
def cJSON_GetObjectItemCaseSensitive (v : JVal) (name : String) : Option JVal :=
  match v with
  | .obj fields => getField fields name
  | _ => none

/-- `cJSON_IsString`. -/
def cJSON_IsString : JVal → Bool
  | .str _ => true
  | _ => false

/-- `cJSON_IsObject`. -/
def cJSON_IsObject : JVal → Bool
  | .obj _ => true
  | _ => false

end Json

namespace Schema

/-- The `STATE_V1_0_SCHEMA` string constant of `schema_validator.c` (exact text). -/
def STATE_V1_0_SCHEMA : String :=
  "\x7b\"$schema\": \"https://json-schema.org/draft/2020-12/schema\",\"title\": \"RTK Device State Message v1.0\",\"type\": \"object\",\"required\": [\"schema\", \"ts\", \"health\"],\"properties\": \x7b\"schema\": \x7b\"const\": \"state/1.0\"\x7d,\"ts\": \x7b\"type\": \"integer\", \"minimum\": 0\x7d,\"health\": \x7b\"enum\": [\"ok\", \"warn\", \"error\"]\x7d,\"fw\": \x7b\"type\": \"string\"\x7d,\"uptime_s\": \x7b\"type\": \"integer\", \"minimum\": 0\x7d,\"cpu_usage\": \x7b\"type\": \"number\", \"minimum\": 0, \"maximum\": 100\x7d,\"memory_usage\": \x7b\"type\": \"number\", \"minimum\": 0, \"maximum\": 100\x7d,\"temperature_c\": \x7b\"type\": \"number\"\x7d,\"trace\": \x7b\"type\": \"object\",\"properties\": \x7b\"req_id\": \x7b\"type\": \"string\"\x7d,\"correlation_id\": \x7b\"type\": \"string\"\x7d,\"span_id\": \x7b\"type\": \"string\"\x7d\x7d\x7d\x7d,\"additionalProperties\": true\x7d"

/-- The `WIFI_ROAM_MISS_V1_0_SCHEMA` string constant of `schema_validator.c` (exact text). -/
def WIFI_ROAM_MISS_V1_0_SCHEMA : String :=
  "\x7b\"$schema\": \"https://json-schema.org/draft/2020-12/schema\",\"title\": \"RTK WiFi Roaming Miss Event v1.0\",\"type\": \"object\",\"required\": [\"schema\", \"ts\", \"severity\", \"trigger_info\", \"diagnosis\"],\"properties\": \x7b\"schema\": \x7b\"const\": \"evt.wifi.roam_miss/1.0\"\x7d,\"ts\": \x7b\"type\": \"integer\", \"minimum\": 0\x7d,\"severity\": \x7b\"enum\": [\"info\", \"warning\", \"error\", \"critical\"]\x7d,\"trigger_info\": \x7b\"type\": \"object\",\"required\": [\"rssi_threshold\", \"duration_ms\", \"cooldown_ms\"],\"properties\": \x7b\"rssi_threshold\": \x7b\"type\": \"integer\", \"maximum\": 0\x7d,\"duration_ms\": \x7b\"type\": \"integer\", \"const\": 10000\x7d,\"cooldown_ms\": \x7b\"type\": \"integer\", \"const\": 300000\x7d\x7d\x7d,\"diagnosis\": \x7b\"type\": \"object\",\"required\": [\"internal_scan_skip_count\", \"environment_ap_count\", \"current_bssid\", \"current_rssi\"],\"properties\": \x7b\"internal_scan_skip_count\": \x7b\"type\": \"integer\", \"minimum\": 0\x7d,\"environment_ap_count\": \x7b\"type\": \"integer\", \"minimum\": 0\x7d,\"current_bssid\": \x7b\"type\": \"string\", \"pattern\": \"^([0-9a-fA-F]\x7b2\x7d:)\x7b5\x7d[0-9a-fA-F]\x7b2\x7d$\"\x7d,\"current_rssi\": \x7b\"type\": \"integer\", \"minimum\": -100, \"maximum\": 0\x7d\x7d\x7d\x7d,\"additionalProperties\": true\x7d"

/-- The `LWT_V1_0_SCHEMA` string constant of `schema_validator.c` (exact text). -/
def LWT_V1_0_SCHEMA : String :=
  "\x7b\"$schema\": \"https://json-schema.org/draft/2020-12/schema\",\"title\": \"RTK Last Will Testament Message v1.0\",\"type\": \"object\",\"required\": [\"status\", \"ts\"],\"properties\": \x7b\"status\": \x7b\"enum\": [\"online\", \"offline\"]\x7d,\"ts\": \x7b\"type\": \"integer\", \"minimum\": 0\x7d,\"reason\": \x7b\"type\": \"string\"\x7d\x7d,\"additionalProperties\": false\x7d"

/-- The `CMD_DIAGNOSIS_GET_V1_0_SCHEMA` string constant of `schema_validator.c` (exact text). -/
def CMD_DIAGNOSIS_GET_V1_0_SCHEMA : String :=
  "\x7b\"$schema\": \"https://json-schema.org/draft/2020-12/schema\",\"title\": \"RTK Diagnosis Get Command v1.0\",\"type\": \"object\",\"required\": [\"id\", \"op\", \"schema\", \"args\"],\"properties\": \x7b\"id\": \x7b\"type\": \"string\", \"minLength\": 1\x7d,\"op\": \x7b\"const\": \"diagnosis.get\"\x7d,\"schema\": \x7b\"const\": \"cmd.diagnosis.get/1.0\"\x7d,\"args\": \x7b\"type\": \"object\",\"required\": [\"type\"],\"properties\": \x7b\"type\": \x7b\"enum\": [\"wifi\", \"system\", \"network\", \"hardware\"]\x7d,\"detail_level\": \x7b\"enum\": [\"basic\", \"full\"]\x7d,\"include_history\": \x7b\"type\": \"boolean\"\x7d\x7d\x7d,\"timeout_ms\": \x7b\"type\": \"integer\", \"minimum\": 1000, \"maximum\": 60000\x7d,\"expect\": \x7b\"enum\": [\"ack\", \"result\", \"none\"]\x7d,\"ts\": \x7b\"type\": \"integer\", \"minimum\": 0\x7d\x7d,\"additionalProperties\": true\x7d"

/-- The error codes of `rtk_schema_validator.h`. -/
def RTK_SCHEMA_SUCCESS : Int := 0

/-- `RTK_SCHEMA_ERROR_INVALID_PARAM` of `rtk_schema_validator.h`. -/
def RTK_SCHEMA_ERROR_INVALID_PARAM : Int := -1

/-- `RTK_SCHEMA_ERROR_NOT_FOUND` of `rtk_schema_validator.h`. -/
def RTK_SCHEMA_ERROR_NOT_FOUND : Int := -2

/-- `RTK_SCHEMA_ERROR_INVALID_JSON` of `rtk_schema_validator.h`. -/
def RTK_SCHEMA_ERROR_INVALID_JSON : Int := -3

/-- `RTK_SCHEMA_ERROR_VALIDATION` of `rtk_schema_validator.h`. -/
def RTK_SCHEMA_ERROR_VALIDATION : Int := -4

/-- `RTK_SCHEMA_ERROR_MEMORY` of `rtk_schema_validator.h`. -/
def RTK_SCHEMA_ERROR_MEMORY : Int := -5

/-- `rtk_schema_definition_t` of `rtk_schema_validator.h` (the derived
`schema_length` field is omitted). -/
structure rtk_schema_definition where
  name : String
  version : String
  description : String
  json_schema : String
  deriving DecidableEq, Repr

/-- `rtk_validation_result_t` of `rtk_schema_validator.h` (`error_line`
is never written by the code and is omitted).  Fields the C code leaves
untouched on a given path are modelled as `""`. -/
structure rtk_validation_result where
  is_valid : Bool
  error_message : String
  error_path : String
  deriving DecidableEq, Repr

/-- The validator module state: `registered_schemas`/`schema_count` and
`is_initialized` of `schema_validator.c`. -/
structure SchemaState where
  registered_schemas : List rtk_schema_definition
  is_initialized : Bool
  deriving DecidableEq, Repr

/-- `MAX_SCHEMAS` of `schema_validator.c`. -/
def MAX_SCHEMAS : Nat := 32

/-- `add_schema_definition` of `schema_validator.c`: append to the
fixed-size table, failing with `Memory` when full. -/
def add_schema_definition (st : SchemaState)
    (name version description json_schema : String) : Int × SchemaState :=
  if MAX_SCHEMAS ≤ st.registered_schemas.length then
    (RTK_SCHEMA_ERROR_MEMORY, st)
  else
    (RTK_SCHEMA_SUCCESS,
      { st with registered_schemas :=
          st.registered_schemas ++ [⟨name, version, description, json_schema⟩] })

/-- `rtk_schema_register_builtin_schemas` of `schema_validator.c`:
registers the four built-in schemas in order, stopping at the first
failure. -/
def rtk_schema_register_builtin_schemas (st : SchemaState) : Int × SchemaState :=
  let (r1, st1) := add_schema_definition st "state/1.0" "1.0"
    "Device state message with health status and metrics" STATE_V1_0_SCHEMA
  if r1 ≠ RTK_SCHEMA_SUCCESS then (r1, st1) else
  let (r2, st2) := add_schema_definition st1 "evt.wifi.roam_miss/1.0" "1.0"
    "WiFi roaming miss event with diagnosis information" WIFI_ROAM_MISS_V1_0_SCHEMA
  if r2 ≠ RTK_SCHEMA_SUCCESS then (r2, st2) else
  let (r3, st3) := add_schema_definition st2 "lwt/1.0" "1.0"
    "Last Will Testament message for device online/offline status" LWT_V1_0_SCHEMA
  if r3 ≠ RTK_SCHEMA_SUCCESS then (r3, st3) else
  let (r4, st4) := add_schema_definition st3 "cmd.diagnosis.get/1.0" "1.0"
    "Diagnosis get command for requesting device diagnostic data" CMD_DIAGNOSIS_GET_V1_0_SCHEMA
  if r4 ≠ RTK_SCHEMA_SUCCESS then (r4, st4) else
  (RTK_SCHEMA_SUCCESS, st4)

/-- `rtk_schema_validator_init` of `schema_validator.c`. -/
def rtk_schema_validator_init (st : SchemaState) : Int × SchemaState :=
  if st.is_initialized then (RTK_SCHEMA_SUCCESS, st)
  else
    let (r, st1) := rtk_schema_register_builtin_schemas ⟨[], false⟩
    if r ≠ RTK_SCHEMA_SUCCESS then (r, st1)
    else (RTK_SCHEMA_SUCCESS, { st1 with is_initialized := true })

/-- The validator state right after a successful
`rtk_schema_validator_init` from the pristine state. -/
def initState : SchemaState :=
  (rtk_schema_validator_init ⟨[], false⟩).2

/-- `rtk_schema_find_by_name` of `schema_validator.c`: first match wins. -/
def rtk_schema_find_by_name (st : SchemaState) (schema_name : String) :
    Option rtk_schema_definition :=
  if !st.is_initialized then none
  else st.registered_schemas.find? (fun d => d.name == schema_name)

/-- The `required`-field walk of `validate_json_against_schema`
(`schema_validator.c:186-201`): the first string entry of the `required`
array naming a field absent from the message. -/
def first_missing (json_obj : Json.JVal) : List Json.JVal → Option String
  | [] => none
  | f :: rest =>
    match f with
    | .str name =>
      if (Json.cJSON_GetObjectItemCaseSensitive json_obj name).isNone then some name
      else first_missing json_obj rest
    | _ => first_missing json_obj rest

/-- The `schema`-const comparison of `validate_json_against_schema`
(`schema_validator.c:204-227`): when the schema declares a string `const`
for the `schema` property and the message carries a string `schema`
field, the two must be equal. -/
def const_check (json_obj schema_obj : Json.JVal) : Int × rtk_validation_result :=
  match Json.cJSON_GetObjectItemCaseSensitive schema_obj "properties" with
  | some (.obj pfs) =>
    match Json.getField pfs "schema" with
    | some schema_prop =>
      match Json.cJSON_GetObjectItemCaseSensitive schema_prop "const" with
      | some (.str expected) =>
        match Json.cJSON_GetObjectItemCaseSensitive json_obj "schema" with
        | some (.str actual) =>
          if expected ≠ actual then
            (RTK_SCHEMA_ERROR_VALIDATION,
              ⟨false, "Schema field mismatch: expected \x27" ++ expected ++
                "\x27, got \x27" ++ actual ++ "\x27", "/schema"⟩)
          else (RTK_SCHEMA_SUCCESS, ⟨true, "", ""⟩)
        | _ => (RTK_SCHEMA_SUCCESS, ⟨true, "", ""⟩)
      | _ => (RTK_SCHEMA_SUCCESS, ⟨true, "", ""⟩)
    | none => (RTK_SCHEMA_SUCCESS, ⟨true, "", ""⟩)
  | _ => (RTK_SCHEMA_SUCCESS, ⟨true, "", ""⟩)

/-- `validate_json_against_schema` of `schema_validator.c`: reject
malformed message JSON; when the schema text itself parses, flag the
first missing required field (with its `/field` path), then check the
`schema` const; an unparsable schema text skips all checks. -/
def validate_json_against_schema (json schema_json : String) :
    Int × rtk_validation_result :=
  match Json.cJSON_Parse json with
  | none => (RTK_SCHEMA_ERROR_INVALID_JSON, ⟨false, "Invalid JSON syntax", ""⟩)
  | some json_obj =>
    match Json.cJSON_Parse schema_json with
    | none => (RTK_SCHEMA_SUCCESS, ⟨true, "", ""⟩)
    | some schema_obj =>
      match Json.cJSON_GetObjectItemCaseSensitive schema_obj "required" with
      | some (.arr fields) =>
        match first_missing json_obj fields with
        | some name =>
          (RTK_SCHEMA_ERROR_VALIDATION,
            ⟨false, "Missing required field: " ++ name, "/" ++ name⟩)
        | none => const_check json_obj schema_obj
      | _ => const_check json_obj schema_obj

/-- `rtk_schema_validate_json` of `schema_validator.c`. -/
def rtk_schema_validate_json (json schema_name : String) (st : SchemaState) :
    Int × rtk_validation_result :=
  if !st.is_initialized then (RTK_SCHEMA_ERROR_INVALID_PARAM, ⟨false, "", ""⟩)
  else
    match rtk_schema_find_by_name st schema_name with
    | none =>
      (RTK_SCHEMA_ERROR_NOT_FOUND, ⟨false, "Schema not found: " ++ schema_name, ""⟩)
    | some schema => validate_json_against_schema json schema.json_schema

/-- `rtk_schema_extract_name_from_json` of `schema_validator.c`: parse
the JSON, return `NotFound` when the `schema` field is absent or not a
string, `Memory` when its value does not fit the caller buffer, else the
value and its byte length. -/
def rtk_schema_extract_name_from_json (json : String) (buffer_size : Nat) :
    Int × Option String :=
  if buffer_size = 0 then (RTK_SCHEMA_ERROR_INVALID_PARAM, none)
  else
    match Json.cJSON_Parse json with
    | none => (RTK_SCHEMA_ERROR_INVALID_JSON, none)
    | some json_obj =>
      match Json.cJSON_GetObjectItemCaseSensitive json_obj "schema" with
      | some (.str schema_value) =>
        if buffer_size ≤ schema_value.utf8ByteSize then (RTK_SCHEMA_ERROR_MEMORY, none)
        else ((schema_value.utf8ByteSize : Int), some schema_value)
      | _ => (RTK_SCHEMA_ERROR_NOT_FOUND, none)

/-- `rtk_schema_auto_validate_json` of `schema_validator.c`: extract the
`schema` field (into a 64-byte local buffer) and delegate to
`rtk_schema_validate_json`; any negative extract result is reported as
`RTK_SCHEMA_ERROR_INVALID_JSON`. -/
def rtk_schema_auto_validate_json (json : String) (st : SchemaState) :
    Int × rtk_validation_result :=
  if !st.is_initialized then (RTK_SCHEMA_ERROR_INVALID_PARAM, ⟨false, "", ""⟩)
  else
    let (ret, nameOpt) := rtk_schema_extract_name_from_json json 64
    if ret < 0 then
      (RTK_SCHEMA_ERROR_INVALID_JSON, ⟨false, "Cannot extract schema name from JSON", ""⟩)
    else
      rtk_schema_validate_json json (nameOpt.getD "") st

/-- The names of the `required` array of a schema text, in order (a
statement-side helper). -/
def required_names (schema_text : String) : List String :=
  match Json.cJSON_Parse schema_text with
  | some schema_obj =>
    match Json.cJSON_GetObjectItemCaseSensitive schema_obj "required" with
    | some (.arr fields) =>
      fields.filterMap fun f =>
        match f with
        | .str name => some name
        | _ => none
    | _ => []
  | none => []

/-- C2 (counterexample): on the input `\x7b\x7d` — which parses
successfully and has no `schema` field — `rtk_schema_auto_validate_json`
on an initialized validator returns `RTK_SCHEMA_ERROR_INVALID_JSON`
(`-3`), not the claimed `RTK_SCHEMA_ERROR_NOT_FOUND` (`-2`): the extract
helper does return `NotFound`, but the `ret < 0` check of
`rtk_schema_auto_validate_json` collapses every negative extract code
into `InvalidJSON`. -/
theorem C2_counterexample_auto_validate_code :
    Json.cJSON_Parse "\x7b\x7d" = some (Json.JVal.obj []) ∧
    Json.cJSON_GetObjectItemCaseSensitive (Json.JVal.obj []) "schema" = none ∧
    rtk_schema_auto_validate_json "\x7b\x7d" initState =
      (RTK_SCHEMA_ERROR_INVALID_JSON,
        ⟨false, "Cannot extract schema name from JSON", ""⟩) ∧
    RTK_SCHEMA_ERROR_INVALID_JSON ≠ RTK_SCHEMA_ERROR_NOT_FOUND := by
  exact ⟨rfl, rfl, rfl, by decide⟩

/-- C2 (amended): for every JSON input that parses successfully but whose
top-level `schema` field is absent or not a string, AutoValidate on an
initialized validator fails with the `RTK_SCHEMA_ERROR_INVALID_JSON`
code (and the message `Cannot extract schema name from JSON`); the
`NotFound` code produced by the extract helper is not propagated. -/
theorem C2_auto_validate_missing_schema_invalid_json (json : String)
    (st : SchemaState) (hst : st.is_initialized = true) (v : Json.JVal)
    (hparse : Json.cJSON_Parse json = some v)
    (hschema : Json.cJSON_GetObjectItemCaseSensitive v "schema" = none ∨
      ∃ w, Json.cJSON_GetObjectItemCaseSensitive v "schema" = some w ∧
        Json.cJSON_IsString w = false) :
    rtk_schema_auto_validate_json json st =
      (RTK_SCHEMA_ERROR_INVALID_JSON,
        ⟨false, "Cannot extract schema name from JSON", ""⟩) := by
  have hex : rtk_schema_extract_name_from_json json 64 =
      (RTK_SCHEMA_ERROR_NOT_FOUND, none) := by
    unfold rtk_schema_extract_name_from_json
    rw [if_neg (by decide), hparse]
    dsimp only
    rcases hschema with h | ⟨w, hw, hws⟩
    · rw [h]
    · rw [hw]
      cases w with
      | str s => simp [Json.cJSON_IsString] at hws
      | null => rfl
      | jbool b => rfl
      | num q => rfl
      | arr l => rfl
      | obj l => rfl
  unfold rtk_schema_auto_validate_json
  rw [hst]
  simp only [Bool.not_true, Bool.false_eq_true, if_false, hex]
  norm_num [RTK_SCHEMA_ERROR_NOT_FOUND]

/-- C2 witness: the input `null` parses, has no `schema` field, and
AutoValidate returns the `InvalidJSON` code on it. -/
theorem C2_auto_validate_missing_schema_witness :
    rtk_schema_auto_validate_json "null" initState =
      (RTK_SCHEMA_ERROR_INVALID_JSON,
        ⟨false, "Cannot extract schema name from JSON", ""⟩) :=
  C2_auto_validate_missing_schema_invalid_json "null" initState rfl
    Json.JVal.null rfl (Or.inl rfl)

set_option maxRecDepth 100000 in
set_option maxHeartbeats 4000000 in
/-- C6: with the built-in schemas registered, validating
`\x7b"schema":"state/1.0","ts":1,"health":"ok"\x7d` against
`state/1.0` succeeds with `is_valid = true`, and validating
`\x7b"ts":1,"health":"ok"\x7d` (missing `schema`) against `state/1.0`
fails with error path `/schema` — `schema` being the first entry of the
`state/1.0` required-field list. -/
theorem C6_state_schema_validation :
    rtk_schema_validate_json "\x7b\"schema\":\"state/1.0\",\"ts\":1,\"health\":\"ok\"\x7d"
        "state/1.0" initState = (RTK_SCHEMA_SUCCESS, ⟨true, "", ""⟩) ∧
    rtk_schema_validate_json "\x7b\"ts\":1,\"health\":\"ok\"\x7d" "state/1.0" initState =
      (RTK_SCHEMA_ERROR_VALIDATION,
        ⟨false, "Missing required field: schema", "/schema"⟩) ∧
    required_names STATE_V1_0_SCHEMA = ["schema", "ts", "health"] := by
  refine ⟨by decide, by decide, by decide⟩

end Schema

namespace Codec

/-- `rtk_trace_info_t` of `rtk_message_codec.h`. -/
structure rtk_trace_info where
  req_id : String
  correlation_id : String
  span_id : String

/-- `rtk_message_header_t` of `rtk_message_codec.h`. -/
structure rtk_message_header where
  schema : String
  timestamp : Int
  trace : rtk_trace_info
  has_trace : Bool

/-- `rtk_state_message_t` of `rtk_message_codec.h`.  The C `float`
fields are modelled as rationals (the code only performs order
comparisons on them). -/
structure rtk_state_message where
  header : rtk_message_header
  health : String
  fw_version : String
  uptime_seconds : Int
  cpu_usage : ℚ
  memory_usage : ℚ
  temperature : ℚ
  custom_data : String

/-- The trace sub-object built by `rtk_encode_state_message`
(`message_codec.c:117-131`): only nonempty trace fields are emitted. -/
def trace_pairs (t : rtk_trace_info) : List (String × Json.JVal) :=
  (if t.req_id.length > 0 then [("req_id", Json.JVal.str t.req_id)] else []) ++
  (if t.correlation_id.length > 0 then
    [("correlation_id", Json.JVal.str t.correlation_id)] else []) ++
  (if t.span_id.length > 0 then [("span_id", Json.JVal.str t.span_id)] else [])

/-- The custom-data merge of `rtk_encode_state_message`
(`message_codec.c:156-176`): a nonempty `custom_data` that parses to a
JSON object contributes its top-level fields (duplicated, in order);
anything else contributes nothing (a parse failure only logs a
warning). -/
def custom_pairs (custom_data : String) : List (String × Json.JVal) :=
  if custom_data.length > 0 then
    match Json.cJSON_Parse custom_data with
    | some (.obj fields) => fields
    | _ => []
  else []

/-- The absolute-zero sentinel `-273.15` of `message_codec.c:152`
(`mkRat` keeps the definition kernel-evaluable; see
`absolute_zero_c_eq`). -/
def absolute_zero_c : ℚ := mkRat (-27315) 100

lemma absolute_zero_c_eq : absolute_zero_c = -273.15 := by
  rw [absolute_zero_c, Rat.mkRat_eq_div]
  norm_num

/-- `rtk_encode_state_message` of `message_codec.c`, modelled as the
cJSON object it constructs and serializes (field order is insertion
order; `cJSON_AddItemToObject` allows duplicate keys).  Buffer-size and
allocation failures are not modelled. -/
def rtk_encode_state_message (message : rtk_state_message) :
    List (String × Json.JVal) :=
  [("schema", Json.JVal.str message.header.schema),
   ("ts", Json.JVal.num (message.header.timestamp : ℚ))] ++
  (if message.header.has_trace then
    [("trace", Json.JVal.obj (trace_pairs message.header.trace))] else []) ++
  [("health", Json.JVal.str message.health)] ++
  (if message.fw_version.length > 0 then
    [("fw", Json.JVal.str message.fw_version)] else []) ++
  (if message.uptime_seconds > 0 then
    [("uptime_s", Json.JVal.num (message.uptime_seconds : ℚ))] else []) ++
  (if message.cpu_usage ≥ 0 then
    [("cpu_usage", Json.JVal.num message.cpu_usage)] else []) ++
  (if message.memory_usage ≥ 0 then
    [("memory_usage", Json.JVal.num message.memory_usage)] else []) ++
  (if message.temperature > absolute_zero_c then
    [("temperature_c", Json.JVal.num message.temperature)] else []) ++
  custom_pairs message.custom_data

lemma mem_if_singleton {α : Type} {a x : α} {c : Prop} [Decidable c] :
    a ∈ (if c then [x] else []) ↔ c ∧ a = x := by
  split <;> simp_all

lemma mem_map_fst_if_singleton {α : Type} {k : String} {p : String × α} {c : Prop}
    [Decidable c] :
    k ∈ (List.map Prod.fst (if c then [p] else [])) ↔ c ∧ k = p.1 := by
  split <;> simp_all

/-- C7 (counterexample): a state message with `uptime_seconds = 0` whose
`custom_data` is the object `\x7b"uptime_s":5\x7d` still produces an
encoded object containing an `uptime_s` key — the custom-data merge
copies every top-level key of `custom_data` into the envelope, so the
claimed omission does not hold for every state message. -/
theorem C7_counterexample_custom_data_injects_uptime :
    rtk_state_message.uptime_seconds
      ⟨⟨"state/1.0", 1, ⟨"", "", ""⟩, false⟩, "ok", "", 0, -1, -1, -300,
        "\x7b\"uptime_s\":5\x7d"⟩ = 0 ∧
    "uptime_s" ∈ (rtk_encode_state_message
      ⟨⟨"state/1.0", 1, ⟨"", "", ""⟩, false⟩, "ok", "", 0, -1, -1, -300,
        "\x7b\"uptime_s\":5\x7d"⟩).map Prod.fst := by
  constructor
  · rfl
  · decide

/-- C7 (amended): for every state message whose custom-data merge
contributes none of the optional numeric keys, the encoder treats
non-positive `uptime_seconds` as unset (no `uptime_s` key),
emits `"uptime_s":120` when `uptime_seconds = 120`, and omits
`cpu_usage` / `memory_usage` below zero and `temperature_c` at or below
`-273.15`. -/
theorem C7_encode_state_optional_numeric_fields (msg : rtk_state_message)
    (hcustom : ∀ p ∈ custom_pairs msg.custom_data,
      p.1 ≠ "uptime_s" ∧ p.1 ≠ "cpu_usage" ∧ p.1 ≠ "memory_usage" ∧
      p.1 ≠ "temperature_c") :
    (msg.uptime_seconds ≤ 0 →
      "uptime_s" ∉ (rtk_encode_state_message msg).map Prod.fst) ∧
    (msg.uptime_seconds = 120 →
      ("uptime_s", Json.JVal.num 120) ∈ rtk_encode_state_message msg) ∧
    (msg.cpu_usage < 0 → "cpu_usage" ∉ (rtk_encode_state_message msg).map Prod.fst) ∧
    (msg.memory_usage < 0 →
      "memory_usage" ∉ (rtk_encode_state_message msg).map Prod.fst) ∧
    (msg.temperature ≤ -273.15 →
      "temperature_c" ∉ (rtk_encode_state_message msg).map Prod.fst) := by
  refine ⟨?_, ?_, ?_, ?_, ?_⟩
  · intro h hmem
    have hu : ¬ (msg.uptime_seconds > 0) := by omega
    simp [rtk_encode_state_message, mem_map_fst_if_singleton, hu] at hmem
    obtain ⟨b, hb⟩ := hmem
    exact (hcustom _ hb).1 rfl
  · intro h
    simp [rtk_encode_state_message, h, mem_if_singleton]
  · intro h hmem
    have hc : ¬ (msg.cpu_usage ≥ 0) := not_le.mpr h
    simp [rtk_encode_state_message, mem_map_fst_if_singleton, hc] at hmem
    obtain ⟨b, hb⟩ := hmem
    exact (hcustom _ hb).2.1 rfl
  · intro h hmem
    have hm : ¬ (msg.memory_usage ≥ 0) := not_le.mpr h
    simp [rtk_encode_state_message, mem_map_fst_if_singleton, hm] at hmem
    obtain ⟨b, hb⟩ := hmem
    exact (hcustom _ hb).2.2.1 rfl
  · intro h hmem
    have ht : ¬ (msg.temperature > absolute_zero_c) := by
      rw [absolute_zero_c_eq]
      exact not_lt.mpr h
    simp [rtk_encode_state_message, mem_map_fst_if_singleton, ht] at hmem
    obtain ⟨b, hb⟩ := hmem
    exact (hcustom _ hb).2.2.2 rfl

/-- C7 witness: with empty custom data, a message with `uptime = 0`,
negative cpu/memory and temperature `-300` omits all four optional keys,
and a message with `uptime = 120` contains the pair `"uptime_s":120`. -/
theorem C7_encode_state_optional_witness :
    "uptime_s" ∉ (rtk_encode_state_message
      ⟨⟨"state/1.0", 1, ⟨"", "", ""⟩, false⟩, "ok", "", 0, -1, -1, -300, ""⟩).map Prod.fst ∧
    ("uptime_s", Json.JVal.num 120) ∈ rtk_encode_state_message
      ⟨⟨"state/1.0", 1, ⟨"", "", ""⟩, false⟩, "ok", "", 120, -1, -1, -300, ""⟩ ∧
    "cpu_usage" ∉ (rtk_encode_state_message
      ⟨⟨"state/1.0", 1, ⟨"", "", ""⟩, false⟩, "ok", "", 0, -1, -1, -300, ""⟩).map Prod.fst ∧
    "memory_usage" ∉ (rtk_encode_state_message
      ⟨⟨"state/1.0", 1, ⟨"", "", ""⟩, false⟩, "ok", "", 0, -1, -1, -300, ""⟩).map Prod.fst ∧
    "temperature_c" ∉ (rtk_encode_state_message
      ⟨⟨"state/1.0", 1, ⟨"", "", ""⟩, false⟩, "ok", "", 0, -1, -1, -300, ""⟩).map Prod.fst := by
  have hA := C7_encode_state_optional_numeric_fields
    ⟨⟨"state/1.0", 1, ⟨"", "", ""⟩, false⟩, "ok", "", 0, -1, -1, -300, ""⟩
    (by simp [custom_pairs])
  have hB := C7_encode_state_optional_numeric_fields
    ⟨⟨"state/1.0", 1, ⟨"", "", ""⟩, false⟩, "ok", "", 120, -1, -1, -300, ""⟩
    (by simp [custom_pairs])
  exact ⟨hA.1 (by norm_num), hB.2.1 rfl, hA.2.2.1 (by norm_num),
    hA.2.2.2.1 (by norm_num), hA.2.2.2.2 (by norm_num)⟩

end Codec

namespace Mqtt

/-- `RTK_MQTT_SUCCESS` of `rtk_mqtt_client.h`. -/
def RTK_MQTT_SUCCESS : Int := 0

/-- `RTK_MQTT_ERROR_INVALID_PARAM` of `rtk_mqtt_client.h`. -/
def RTK_MQTT_ERROR_INVALID_PARAM : Int := -1

/-- `RTK_MQTT_ERROR_NOT_CONNECTED` of `rtk_mqtt_client.h`. -/
def RTK_MQTT_ERROR_NOT_CONNECTED : Int := -2

/-- `RTK_MQTT_ERROR_BACKEND_NOT_FOUND` of `rtk_mqtt_client.h`. -/
def RTK_MQTT_ERROR_BACKEND_NOT_FOUND : Int := -6

/-- `RTK_MQTT_ERROR_ALREADY_CONNECTED` of `rtk_mqtt_client.h`. -/
def RTK_MQTT_ERROR_ALREADY_CONNECTED : Int := -7

/-- The part of `rtk_mqtt_config_t` (`rtk_mqtt_client.h`) that
`rtk_mqtt_validate_config` inspects; the remaining fields (keep-alive,
timeouts, credentials, LWT settings) are carried opaquely by the code and
omitted here. -/
structure rtk_mqtt_config where
  broker_host : String
  broker_port : Int
  client_id : String
  deriving DecidableEq, Repr

/-- A backend operation invoked through the active backend's function
table; the manager theorems track which of these the manager calls. -/
inductive BackendCall where
  | init
  | connect
  | disconnect
  | is_connected
  | publish
  deriving DecidableEq, Repr

/-- The return values of the active backend's operations (the backend is
an external collaborator; its behaviour is a parameter of the model). -/
structure BackendBehavior where
  initRet : rtk_mqtt_config → Int
  connectRet : Int
  disconnectRet : Int
  publishRet : Int

/-- The `mqtt_manager` state of `mqtt_client.c`: `is_initialized`,
whether `current_backend` is non-NULL, `is_configured`, what the
backend's `is_connected()` reports, the stored configuration and the
`last_error` pair. -/
structure MqttState where
  is_initialized : Bool
  has_backend : Bool
  is_configured : Bool
  backend_connected : Bool
  current_config : Option rtk_mqtt_config
  last_error_code : Int
  last_error : String

/-- `set_last_error` of `mqtt_client.c`. -/
def set_last_error (st : MqttState) (code : Int) (message : String) : MqttState :=
  { st with last_error_code := code, last_error := message }

/-- `rtk_mqtt_is_connected` of `mqtt_client.c`: `0` when uninitialized or
without a backend, else the backend's `is_connected()` (recorded in the
call trace). -/
def rtk_mqtt_is_connected (st : MqttState) : Bool × List BackendCall :=
  if !(st.is_initialized && st.has_backend) then (false, [])
  else (st.backend_connected, [BackendCall.is_connected])

/-- `rtk_mqtt_validate_config` of `mqtt_client.c`, returning the status
code together with the `last_error` message it records on failure. -/
def rtk_mqtt_validate_config (config : Option rtk_mqtt_config) : Int × String :=
  match config with
  | none => (RTK_MQTT_ERROR_INVALID_PARAM, "Config is NULL")
  | some cfg =>
    if cfg.broker_host = "" then
      (RTK_MQTT_ERROR_INVALID_PARAM, "Broker host is empty")
    else if cfg.broker_port ≤ 0 ∨ 65535 < cfg.broker_port then
      (RTK_MQTT_ERROR_INVALID_PARAM, "Invalid broker port")
    else if cfg.client_id = "" then
      (RTK_MQTT_ERROR_INVALID_PARAM, "Client ID is empty")
    else (RTK_MQTT_SUCCESS, "")

/-- `rtk_mqtt_configure` of `mqtt_client.c`: validate, store the config,
run the backend `init`, and only then mark the manager configured.  The
result is `(status, new state, backend calls made)`. -/
def rtk_mqtt_configure (config : Option rtk_mqtt_config) (env : BackendBehavior)
    (st : MqttState) : Int × MqttState × List BackendCall :=
  if !(st.is_initialized && st.has_backend) then
    (RTK_MQTT_ERROR_BACKEND_NOT_FOUND,
      set_last_error st RTK_MQTT_ERROR_BACKEND_NOT_FOUND "No backend available", [])
  else
    match config with
    | none =>
      (RTK_MQTT_ERROR_INVALID_PARAM,
        set_last_error st RTK_MQTT_ERROR_INVALID_PARAM "Config is NULL", [])
    | some cfg =>
      let (vr, vmsg) := rtk_mqtt_validate_config (some cfg)
      if vr ≠ RTK_MQTT_SUCCESS then (vr, set_last_error st vr vmsg, [])
      else
        let st1 := { st with current_config := some cfg }
        let ret := env.initRet cfg
        if ret ≠ RTK_MQTT_SUCCESS then
          (ret, set_last_error st1 ret "Backend initialization failed", [BackendCall.init])
        else
          (RTK_MQTT_SUCCESS,
            set_last_error { st1 with is_configured := true } RTK_MQTT_SUCCESS
              "MQTT client configured successfully", [BackendCall.init])

/-- `rtk_mqtt_connect` of `mqtt_client.c`: the `is_configured` check
comes before any backend interaction; on a successful backend `connect`
the backend reports connected afterwards. -/
def rtk_mqtt_connect (env : BackendBehavior) (st : MqttState) :
    Int × MqttState × List BackendCall :=
  if !(st.is_initialized && st.has_backend) then
    (RTK_MQTT_ERROR_BACKEND_NOT_FOUND,
      set_last_error st RTK_MQTT_ERROR_BACKEND_NOT_FOUND "No backend available", [])
  else if !st.is_configured then
    (RTK_MQTT_ERROR_INVALID_PARAM,
      set_last_error st RTK_MQTT_ERROR_INVALID_PARAM "Client not configured", [])
  else
    let (conn, c1) := rtk_mqtt_is_connected st
    if conn then
      (RTK_MQTT_ERROR_ALREADY_CONNECTED,
        set_last_error st RTK_MQTT_ERROR_ALREADY_CONNECTED "Already connected", c1)
    else
      let ret := env.connectRet
      if ret ≠ RTK_MQTT_SUCCESS then
        (ret, set_last_error st ret "Connection failed", c1 ++ [BackendCall.connect])
      else
        (RTK_MQTT_SUCCESS,
          set_last_error { st with backend_connected := true } RTK_MQTT_SUCCESS
            "Connected successfully", c1 ++ [BackendCall.connect])

/-- `rtk_mqtt_publish_message` of `mqtt_client.c` (for a non-NULL
message). -/
def rtk_mqtt_publish_message (env : BackendBehavior) (st : MqttState) :
    Int × MqttState × List BackendCall :=
  if !(st.is_initialized && st.has_backend) then
    (RTK_MQTT_ERROR_BACKEND_NOT_FOUND,
      set_last_error st RTK_MQTT_ERROR_BACKEND_NOT_FOUND "No backend available", [])
  else
    let (conn, c1) := rtk_mqtt_is_connected st
    if !conn then
      (RTK_MQTT_ERROR_NOT_CONNECTED,
        set_last_error st RTK_MQTT_ERROR_NOT_CONNECTED "Not connected to broker", c1)
    else
      let ret := env.publishRet
      if ret ≠ RTK_MQTT_SUCCESS then
        (ret, set_last_error st ret "Publish failed", c1 ++ [BackendCall.publish])
      else (RTK_MQTT_SUCCESS, st, c1 ++ [BackendCall.publish])

/-- `rtk_mqtt_publish` of `mqtt_client.c`: `none` for `topic`/`payload`
models NULL pointers; after its own checks it delegates to
`rtk_mqtt_publish_message`. -/
def rtk_mqtt_publish (topic : Option String) (payload : Option String)
    (env : BackendBehavior) (st : MqttState) : Int × MqttState × List BackendCall :=
  if !(st.is_initialized && st.has_backend) then
    (RTK_MQTT_ERROR_BACKEND_NOT_FOUND,
      set_last_error st RTK_MQTT_ERROR_BACKEND_NOT_FOUND "No backend available", [])
  else if topic.isNone || payload.isNone then
    (RTK_MQTT_ERROR_INVALID_PARAM,
      set_last_error st RTK_MQTT_ERROR_INVALID_PARAM "Invalid parameters", [])
  else
    let (conn, c1) := rtk_mqtt_is_connected st
    if !conn then
      (RTK_MQTT_ERROR_NOT_CONNECTED,
        set_last_error st RTK_MQTT_ERROR_NOT_CONNECTED "Not connected to broker", c1)
    else
      let (r, st2, c2) := rtk_mqtt_publish_message env st
      (r, st2, c1 ++ c2)

/-- The manager state right after a successful `rtk_mqtt_init`:
initialized with an active backend, not configured, backend
disconnected. -/
def initializedState : MqttState :=
  ⟨true, true, false, false, none, RTK_MQTT_SUCCESS,
    "MQTT client manager initialized with PubSubClient"⟩

/-- C4 (counterexample): with the manager initialized (active backend
present, nothing configured), `Connect` returns exactly the same status
code as `Configure` with `broker_port = 70000` — both are
`RTK_MQTT_ERROR_INVALID_PARAM` (`-1`).  The `rtk_mqtt_error_t` enum has
no dedicated NotConfigured code; only the `last_error` string
(`Client not configured`) distinguishes the two failures, so the claim
that `Connect` before `Configure` fails "with the NotConfigured error"
does not hold at the status-code level. -/
theorem C4_counterexample_no_distinct_not_configured_code :
    (rtk_mqtt_connect ⟨fun _ => 0, 0, 0, 0⟩ initializedState).1 =
      (rtk_mqtt_configure (some ⟨"broker.local", 70000, "client1"⟩)
        ⟨fun _ => 0, 0, 0, 0⟩ initializedState).1 ∧
    (rtk_mqtt_connect ⟨fun _ => 0, 0, 0, 0⟩ initializedState).1 =
      RTK_MQTT_ERROR_INVALID_PARAM ∧
    (rtk_mqtt_connect ⟨fun _ => 0, 0, 0, 0⟩ initializedState).2.1.last_error =
      "Client not configured" := by
  exact ⟨rfl, rfl, rfl⟩

/-- C4 (amended): with the manager initialized and an active backend
present, `Configure` with `broker_port = 70000` fails with `InvalidParam`
without marking the manager configured and without any backend call;
`Connect` before a successful `Configure` fails with the `InvalidParam`
code and last-error message `Client not configured` (there is no
dedicated NotConfigured code) without any backend call; `Publish` before
a successful `Connect` fails with `NotConnected`, the only backend
operation invoked being the `is_connected` query — in particular no
backend `publish` or `connect` is invoked in any of the failing cases. -/
theorem C4_backend_manager_precondition_failures (env : BackendBehavior)
    (st : MqttState) (hinit : st.is_initialized = true)
    (hback : st.has_backend = true) :
    (∀ host cid : String,
      (rtk_mqtt_configure (some ⟨host, 70000, cid⟩) env st).1 =
        RTK_MQTT_ERROR_INVALID_PARAM ∧
      (rtk_mqtt_configure (some ⟨host, 70000, cid⟩) env st).2.1.is_configured =
        st.is_configured ∧
      (rtk_mqtt_configure (some ⟨host, 70000, cid⟩) env st).2.2 = []) ∧
    (st.is_configured = false →
      (rtk_mqtt_connect env st).1 = RTK_MQTT_ERROR_INVALID_PARAM ∧
      (rtk_mqtt_connect env st).2.1.last_error = "Client not configured" ∧
      (rtk_mqtt_connect env st).2.2 = []) ∧
    (st.backend_connected = false → ∀ topic payload : String,
      (rtk_mqtt_publish (some topic) (some payload) env st).1 =
        RTK_MQTT_ERROR_NOT_CONNECTED ∧
      (rtk_mqtt_publish (some topic) (some payload) env st).2.2 =
        [BackendCall.is_connected]) := by
  refine ⟨fun host cid => ?_, fun hconf => ?_, fun hdisc topic payload => ?_⟩
  · by_cases hhost : host = "" <;>
      simp [rtk_mqtt_configure, rtk_mqtt_validate_config, hinit, hback, hhost,
        set_last_error, RTK_MQTT_SUCCESS, RTK_MQTT_ERROR_INVALID_PARAM]
  · simp [rtk_mqtt_connect, hinit, hback, hconf, set_last_error]
  · simp [rtk_mqtt_publish, rtk_mqtt_is_connected, hinit, hback, hdisc,
      set_last_error]

/-- C4 witness: the three precondition failures at the concrete
just-initialized manager state. -/
theorem C4_backend_manager_precondition_witness :
    (rtk_mqtt_configure (some ⟨"broker.local", 70000, "client1"⟩)
      ⟨fun _ => 0, 0, 0, 0⟩ initializedState).1 = RTK_MQTT_ERROR_INVALID_PARAM ∧
    (rtk_mqtt_connect ⟨fun _ => 0, 0, 0, 0⟩ initializedState).1 =
      RTK_MQTT_ERROR_INVALID_PARAM ∧
    (rtk_mqtt_publish (some "rtk/v1/acme/hq/dev1/state") (some "payload")
      ⟨fun _ => 0, 0, 0, 0⟩ initializedState).1 = RTK_MQTT_ERROR_NOT_CONNECTED := by
  have h := C4_backend_manager_precondition_failures ⟨fun _ => 0, 0, 0, 0⟩
    initializedState rfl rfl
  exact ⟨(h.1 "broker.local" "client1").1, (h.2.1 rfl).1,
    (h.2.2 rfl "rtk/v1/acme/hq/dev1/state" "payload").1⟩

end Mqtt

namespace Plugin

/-- `RTK_PLUGIN_SUCCESS` of `rtk_device_plugin.h`. -/
def RTK_PLUGIN_SUCCESS : Int := 0

/-- `RTK_PLUGIN_ERROR_INVALID_PARAM` of `rtk_device_plugin.h`. -/
def RTK_PLUGIN_ERROR_INVALID_PARAM : Int := -1

/-- `RTK_PLUGIN_ERROR_NOT_FOUND` of `rtk_device_plugin.h`. -/
def RTK_PLUGIN_ERROR_NOT_FOUND : Int := -2

/-- `rtk_plugin_config_t` of `rtk_device_plugin.h`.  The plugin manager
only copies this struct and hands it to the plugin; the password field is
omitted. -/
structure rtk_plugin_config where
  mqtt_broker : String
  mqtt_port : Int
  device_id : String
  tenant : String
  site : String
  mqtt_username : String
  plugin_config : String
  telemetry_interval : Int
  event_cooldown : Int

/-- The behaviour of a plugin's `rtk_device_plugin_vtable_t`: which
capability slots are non-NULL and what the lifecycle functions return
(the plugin binary is an external collaborator; its behaviour is a
parameter of the model). -/
structure rtk_device_plugin_vtable where
  has_get_device_info : Bool
  has_initialize : Bool
  initializeRet : rtk_plugin_config → Int
  has_start : Bool
  startRet : Int
  has_stop : Bool
  stopRet : Int
  has_health_check : Bool
  healthRet : Int

/-- `rtk_plugin_info_t` of `rtk_device_plugin.h`; `handle_open` models
the dlopen library handle being open. -/
structure rtk_plugin_info where
  name : String
  version : String
  description : String
  vtable : rtk_device_plugin_vtable
  handle_open : Bool

/-- `rtk_plugin_instance_t` of `rtk_device_plugin.h`; `plugin_idx`
models the `plugin_info` pointer `&loaded_plugins[plugin_idx]`. -/
structure rtk_plugin_instance where
  name : String
  plugin_idx : Nat
  config : rtk_plugin_config
  is_running : Bool

/-- The plugin manager state of `plugin_manager.c`: the `loaded_plugins`
table (length = `plugin_count`), the 32 `plugin_instances` slots (a
cleared slot — `plugin_info == NULL` — is `none`), `instance_count` and
`is_initialized`. -/
structure PluginState where
  loaded_plugins : List rtk_plugin_info
  instances : List (Option rtk_plugin_instance)
  instance_count : Nat
  is_initialized : Bool

/-- `MAX_PLUGINS` of `plugin_manager.c`. -/
def MAX_PLUGINS : Nat := 16

/-- `MAX_INSTANCES` of `plugin_manager.c`. -/
def MAX_INSTANCES : Nat := 32

/-- An index-returning linear scan, the shape of the `for` loops of
`find_plugin_by_name`, `find_instance_by_name` and
`find_free_instance_slot`. -/
def scan_idx {α : Type} (p : α → Bool) : List α → Nat → Option Nat
  | [], _ => none
  | x :: rest, i => if p x then some i else scan_idx p rest (i + 1)

/-- `find_plugin_by_name` of `plugin_manager.c`. -/
def find_plugin_by_name (st : PluginState) (plugin_name : String) : Option Nat :=
  scan_idx (fun p => p.name == plugin_name) st.loaded_plugins 0

/-- The name a slot exposes to `find_instance_by_name`: a cleared slot
has a zeroed (empty) name. -/
def slot_name : Option rtk_plugin_instance → String
  | none => ""
  | some inst => inst.name

/-- `find_instance_by_name` of `plugin_manager.c`: scans the first
`instance_count` slots by name. -/
def find_instance_by_name (st : PluginState) (instance_name : String) : Option Nat :=
  scan_idx (fun s => slot_name s == instance_name)
    (st.instances.take st.instance_count) 0

/-- `find_free_instance_slot` of `plugin_manager.c`: the first slot with
`plugin_info == NULL`, over all `MAX_INSTANCES` slots. -/
def find_free_instance_slot (st : PluginState) : Option Nat :=
  scan_idx (fun s => s.isNone) st.instances 0

/-- The busy test of `rtk_plugin_unload` (`plugin_manager.c:203-208`):
some slot references `&loaded_plugins[index]` and is running. -/
def has_running_instance (st : PluginState) (index : Nat) : Bool :=
  st.instances.any fun s =>
    match s with
    | some inst => inst.plugin_idx == index && inst.is_running
    | none => false

/-- `rtk_plugin_unload` of `plugin_manager.c`: `NotFound` when absent;
refused — reusing the `NotFound` code, see the C comment at line 206 —
when any instance of this plugin is running; otherwise the handle is
closed and the table compacted. -/
def rtk_plugin_unload (plugin_name : String) (st : PluginState) : Int × PluginState :=
  if !st.is_initialized then (RTK_PLUGIN_ERROR_INVALID_PARAM, st)
  else
    match find_plugin_by_name st plugin_name with
    | none => (RTK_PLUGIN_ERROR_NOT_FOUND, st)
    | some index =>
      if has_running_instance st index then (RTK_PLUGIN_ERROR_NOT_FOUND, st)
      else
        (RTK_PLUGIN_SUCCESS,
          { st with loaded_plugins := st.loaded_plugins.eraseIdx index })

/-- `rtk_plugin_create_instance` of `plugin_manager.c`: the result is
the slot index of the created instance (the C function returns a pointer
into the table) and the new state.  On a failing plugin `initialize` the
freshly written slot is memset back to zero. -/
def rtk_plugin_create_instance (plugin_name instance_name : String)
    (config : Option rtk_plugin_config) (st : PluginState) :
    Option Nat × PluginState :=
  match config with
  | none => (none, st)
  | some cfg =>
    if !st.is_initialized then (none, st)
    else
      match find_plugin_by_name st plugin_name with
      | none => (none, st)
      | some pidx =>
        match st.loaded_plugins.get? pidx with
        | none => (none, st)
        | some plugin =>
          if (find_instance_by_name st instance_name).isSome then (none, st)
          else
            match find_free_instance_slot st with
            | none => (none, st)
            | some slot =>
              let inst : rtk_plugin_instance := ⟨instance_name, pidx, cfg, false⟩
              let st1 := { st with instances := st.instances.set slot (some inst) }
              if plugin.vtable.has_initialize then
                let ret := plugin.vtable.initializeRet cfg
                if ret ≠ RTK_PLUGIN_SUCCESS then
                  (none, { st1 with instances := st1.instances.set slot none })
                else
                  (some slot,
                    if st1.instance_count ≤ slot then
                      { st1 with instance_count := slot + 1 }
                    else st1)
              else
                (some slot,
                  if st1.instance_count ≤ slot then
                    { st1 with instance_count := slot + 1 }
                  else st1)

lemma scan_idx_spec {α : Type} (p : α → Bool) :
    ∀ (l : List α) (start i : Nat), scan_idx p l start = some i →
      start ≤ i ∧ ∃ a, l.get? (i - start) = some a ∧ p a = true := by
  intro l
  induction l with
  | nil => intro start i h; exact absurd h (by simp [scan_idx])
  | cons x rest ih =>
    intro start i h
    rw [scan_idx] at h
    by_cases hp : p x
    · rw [if_pos hp] at h
      cases h
      exact ⟨le_refl _, x, by simp, hp⟩
    · rw [if_neg hp] at h
      obtain ⟨hle, a, hget, hpa⟩ := ih (start + 1) i h
      refine ⟨by omega, a, ?_, hpa⟩
      have : i - start = (i - (start + 1)) + 1 := by omega
      rw [this]
      simpa using hget

lemma set_get?_self {α : Type} :
    ∀ (l : List α) (i : Nat) (a : α), l.get? i = some a → l.set i a = l := by
  intro l
  induction l with
  | nil => intro i a h; simp
  | cons x rest ih =>
    intro i a h
    cases i with
    | zero =>
      simp only [List.get?] at h
      cases h
      simp
    | succ j =>
      simp only [List.get?] at h
      simp [ih j a h]

/-- C5: for every loaded plugin that has at least one instance currently
running, `Unload` is refused: it returns the (non-success) `NotFound`
code — the code the C source itself marks as a placeholder — and leaves
the whole manager state unchanged: the plugin stays loaded with its
library handle open and no table entry is moved or removed. -/
theorem C5_unload_refused_while_running (st : PluginState) (name : String)
    (hinit : st.is_initialized = true) (idx i : Nat)
    (hfind : find_plugin_by_name st name = some idx)
    (inst : rtk_plugin_instance)
    (hslot : st.instances.get? i = some (some inst))
    (hidx : inst.plugin_idx = idx) (hrun : inst.is_running = true) :
    rtk_plugin_unload name st = (RTK_PLUGIN_ERROR_NOT_FOUND, st) ∧
    RTK_PLUGIN_ERROR_NOT_FOUND ≠ RTK_PLUGIN_SUCCESS := by
  have hbusy : has_running_instance st idx = true := by
    rw [has_running_instance, List.any_eq_true]
    exact ⟨some inst, List.get?_mem hslot, by simp [hidx, hrun]⟩
  refine ⟨?_, by decide⟩
  simp [rtk_plugin_unload, hinit, hfind, hbusy]

/-- C8: when a loaded plugin's `initialize(config)` fails,
`CreateInstance` returns failure and the manager state is exactly the
pre-call state — the freshly written slot is cleared, no entry with the
requested instance name remains, and `instance_count` is unchanged — and
a subsequent `CreateInstance` with the same instance name (and a config
the plugin accepts) succeeds. -/
theorem C8_create_instance_rollback (st : PluginState)
    (plugin_name instance_name : String) (cfg : rtk_plugin_config)
    (pidx slot : Nat) (plugin : rtk_plugin_info)
    (hinit : st.is_initialized = true)
    (hfind : find_plugin_by_name st plugin_name = some pidx)
    (hplug : st.loaded_plugins.get? pidx = some plugin)
    (hname : find_instance_by_name st instance_name = none)
    (hfree : find_free_instance_slot st = some slot)
    (hhas : plugin.vtable.has_initialize = true)
    (hfail : plugin.vtable.initializeRet cfg ≠ RTK_PLUGIN_SUCCESS) :
    rtk_plugin_create_instance plugin_name instance_name (some cfg) st = (none, st) ∧
    ∀ cfg2, plugin.vtable.initializeRet cfg2 = RTK_PLUGIN_SUCCESS →
      (rtk_plugin_create_instance plugin_name instance_name (some cfg2) st).1 =
        some slot := by
  have hslotval : st.instances.get? slot = some none := by
    obtain ⟨-, a, hget, hpa⟩ := scan_idx_spec _ _ 0 slot hfree
    have ha : a = none := by
      cases a with
      | none => rfl
      | some v => exact absurd hpa (by simp)
    rw [ha] at hget
    simpa using hget
  constructor
  · simp only [rtk_plugin_create_instance, hinit, hfind, hplug, hname, hfree, hhas,
      Bool.not_true, Bool.false_eq_true, if_false, Option.isSome_none, if_true,
      if_pos hfail]
    rw [List.set_set, set_get?_self _ _ _ hslotval]
    rw [← hinit]
  · intro cfg2 h2
    have hplug2 : st.loaded_plugins[pidx]? = some plugin := by
      simpa [← List.get?_eq_getElem?] using hplug
    simp [rtk_plugin_create_instance, hinit, hfind, hplug, hplug2, hname, hfree,
      hhas, h2]

/-- A plugin configuration used by the witness states. -/
def wconfig (port : Int) : rtk_plugin_config :=
  ⟨"localhost", port, "device001", "default", "site1", "", "", 60, 300⟩

/-- A witness plugin vtable whose `initialize` rejects configs with
`mqtt_port = 0` and accepts all others. -/
def wvtable : rtk_device_plugin_vtable :=
  ⟨true, true, fun c => if c.mqtt_port = 0 then RTK_PLUGIN_ERROR_INVALID_PARAM
    else RTK_PLUGIN_SUCCESS, true, 0, true, 0, false, 0⟩

/-- A witness loaded plugin. -/
def wplugin : rtk_plugin_info :=
  ⟨"demo", "1.0", "demo plugin", wvtable, true⟩

/-- A witness manager state with `demo` loaded and all slots free. -/
def wstate_free : PluginState :=
  ⟨[wplugin], List.replicate 32 none, 0, true⟩

/-- A witness manager state with `demo` loaded and one running instance
of it. -/
def wstate_busy : PluginState :=
  ⟨[wplugin], some ⟨"inst1", 0, wconfig 1883, true⟩ :: List.replicate 31 none, 1, true⟩

/-- C5 witness: unloading `demo` while `inst1` is running is refused and
the state is untouched. -/
theorem C5_unload_refused_witness :
    rtk_plugin_unload "demo" wstate_busy = (RTK_PLUGIN_ERROR_NOT_FOUND, wstate_busy) :=
  (C5_unload_refused_while_running wstate_busy "demo" rfl 0 0 rfl
    ⟨"inst1", 0, wconfig 1883, true⟩ rfl rfl rfl).1

/-- C8 witness: creating `inst1` with a config the plugin rejects fails
and leaves the state exactly as before; retrying with an accepted config
succeeds in slot 0. -/
theorem C8_create_instance_rollback_witness :
    rtk_plugin_create_instance "demo" "inst1" (some (wconfig 0)) wstate_free =
      (none, wstate_free) ∧
    (rtk_plugin_create_instance "demo" "inst1" (some (wconfig 1883)) wstate_free).1 =
      some 0 := by
  have h := C8_create_instance_rollback wstate_free "demo" "inst1" (wconfig 0) 0 0
    wplugin rfl rfl rfl rfl rfl rfl (by decide)
  exact ⟨h.1, h.2 (wconfig 1883) (by decide)⟩

end Plugin






end RtkMqtt
